import Mathlib

/-!
Verification of the schema-reconciliation layer of the urban-mobility
repository (file src/fetch_data.py).

The pandas DataFrame is modelled column-orientedly: a frame is a list of
columns, each a pair of a label and the list of cell values for that label.
Cell values are modelled as the string rendering that pandas would print for
them (the identifier columns are parsed with dtype str in the source, and the
object-id column only ever flows into an f-string, so this loses nothing the
claims can observe).  `pd.read_csv` mangles duplicate headers, so raw frames
have pairwise distinct labels; the operations below are nevertheless total and
follow pandas on every frame:
  * `df[c]` (column read) returns the first column labelled `c`;
  * `df[c] = vs` (column write) replaces the values of the column labelled `c`
    when present and appends a new column otherwise;
  * `df.drop(c, axis=1)` removes every column labelled `c`;
  * `df.rename(columns=m)` relabels each column by a single lookup in `m`.
Failures (assert, KeyError, IndexError, missing file) are an explicit error
type, so every fallible source function returns `Except`.
-/

abbrev Column := String × List String

abbrev DataFrame := List Column

/-- The labels of the columns of a frame, in order (df.columns). -/
def colNames (df : DataFrame) : List String :=
  df.map Prod.fst

/-- Membership test on column labels (the Python test `c in df.columns`). -/
def hasCol (df : DataFrame) (c : String) : Bool :=
  df.any (fun col => col.1 = c)

/-- Column read df[c]: the values of the first column labelled c, if any. -/
def getCol (df : DataFrame) (c : String) : Option (List String) :=
  (df.find? (fun col => col.1 = c)).map Prod.snd

/-- Column write df[c] = vs: overwrite the column labelled c, or append it. -/
def setCol (df : DataFrame) (c : String) (vs : List String) : DataFrame :=
  if hasCol df c then df.map (fun col => if col.1 = c then (c, vs) else col)
  else df ++ [(c, vs)]

/-- Column drop df.drop(c, axis=1): remove every column labelled c. -/
def dropCol (df : DataFrame) (c : String) : DataFrame :=
  df.filter (fun col => col.1 ≠ c)

/-- The cell in column c at row index j, if both exist. -/
def colCell (df : DataFrame) (c : String) (j : Nat) : Option String :=
  (getCol df c).bind (fun vs => vs.get? j)

/-- Errors surfaced by the source functions: the assert in get_df / get_dfs
(the configuration error of the spec, carrying the years its message
interpolates), a missing column (pandas KeyError), positional indexing out of
bounds (pandas/numpy IndexError), and a missing csv file. -/
inductive PdError where
  | configurationError (mentionedYears : List Nat)
  | keyError (col : String)
  | indexError (idx : Nat)
  | fileNotFound (year : Nat)
  deriving DecidableEq, Repr

/-- DATA_YEARS = range(2016, 2025). -/
def DATA_YEARS : List Nat := List.range' 2016 9

/-- Element-wise string concatenation of the four administrative fragments:
df[ULAND] + df[UREGBEZ] + df[UKREIS] + df[UGEMEINDE]. -/
def communityKeyRaw (ul ur uk ug : List String) : List String :=
  List.zipWith (fun a b => a ++ b)
    (List.zipWith (fun a b => a ++ b) (List.zipWith (fun a b => a ++ b) ul ur) uk) ug

/-- One iteration of the city-state loop:
df.loc[df[ULAND] == s, Community_key] = s + "000000". -/
def locSetCommunity (df : DataFrame) (s : String) : DataFrame :=
  match getCol df "ULAND", getCol df "Community_key" with
  | some ul, some ck =>
      setCol df "Community_key"
        (List.zipWith (fun u c => if u = s then s ++ "000000" else c) ul ck)
  | _, _ => df

/-- states = ["11", "02"]. -/
def states : List String := ["11", "02"]

/-- for s in states: df.loc[df[ULAND] == s, Community_key] = s + "000000". -/
def applyCityStates (df : DataFrame) : DataFrame :=
  states.foldl locSetCommunity df

/-- The Community_key construction of get_df: the concatenation column followed
by the city-state loop.  Reading a missing fragment column is a KeyError, in
the order Python evaluates the sum. -/
def addCommunityKey (df : DataFrame) : Except PdError DataFrame :=
  match getCol df "ULAND", getCol df "UREGBEZ", getCol df "UKREIS", getCol df "UGEMEINDE" with
  | some ul, some ur, some uk, some ug =>
      .ok (applyCityStates (setCol df "Community_key" (communityKeyRaw ul ur uk ug)))
  | none, _, _, _ => .error (.keyError "ULAND")
  | _, none, _, _ => .error (.keyError "UREGBEZ")
  | _, _, none, _ => .error (.keyError "UKREIS")
  | _, _, _, none => .error (.keyError "UGEMEINDE")

/-- The first guarded drop of get_df: if "UIDENTSTLAE" in df.columns drop it,
elif "UIDENTSTLA" in df.columns drop that. -/
def dropStreetVariant (df : DataFrame) : DataFrame :=
  if hasCol df "UIDENTSTLAE" then dropCol df "UIDENTSTLAE"
  else if hasCol df "UIDENTSTLA" then dropCol df "UIDENTSTLA"
  else df

/-- if "FID" in df.columns: df.drop("FID", axis=1). -/
def dropFid (df : DataFrame) : DataFrame :=
  if hasCol df "FID" then dropCol df "FID" else df

/-- if "PLST" in df.columns: df.drop("PLST", axis=1). -/
def dropPlst (df : DataFrame) : DataFrame :=
  if hasCol df "PLST" then dropCol df "PLST" else df

/-- The whole drop block of get_df, in source order: the street-identifier
variant, then FID, then PLST. -/
def dropIdentifierCols (df : DataFrame) : DataFrame :=
  dropPlst (dropFid (dropStreetVariant df))

/-- The columns dict passed to df.rename in get_df. -/
def renameMap : List (String × String) :=
  [("IstSonstig", "IstSonstige"),
   ("STRZUSTAND", "USTRZUSTAND"),
   ("IstStrasse", "USTRZUSTAND"),
   ("IstStrassenzustand", "USTRZUSTAND"),
   ("LICHT", "ULICHTVERH"),
   ("OBJECTID", "OID_"),
   ("OBJECTID_1", "OID_")]

/-- What df.rename does to one label: a single dict lookup, identity on a
label that is not a key of the dict. -/
def renameOne (c : String) : String :=
  (renameMap.lookup c).getD c

/-- df.rename(columns=renameMap): relabel every column by one lookup. -/
def renameCols (df : DataFrame) : DataFrame :=
  df.map (fun col => (renameOne col.1, col.2))

/-- The f-string of the UID construction: f"[year]_[x]". -/
def uidOf (year : Nat) (x : String) : String :=
  toString year ++ "_" ++ x

/-- df["UID"] = df["OID_"].apply(lambda x: f"[year]_[x]"); a missing OID_
column is a KeyError. -/
def addUID (year : Nat) (df : DataFrame) : Except PdError DataFrame :=
  match getCol df "OID_" with
  | some oids => .ok (setCol df "UID" (oids.map (uidOf year)))
  | none => .error (.keyError "OID_")

/-- get_df(year): assert the year is supported (the message interpolates the
year and DATA_YEARS), read the csv for the year from the filesystem `fs`, add
Community_key, drop the identifier columns, rename, add UID. -/
def get_df (year : Nat) (fs : Nat → Option DataFrame) : Except PdError DataFrame :=
  if year ∈ DATA_YEARS then
    match fs year with
    | none => .error (.fileNotFound year)
    | some raw =>
      match addCommunityKey raw with
      | .error e => .error e
      | .ok df => addUID year (renameCols (dropIdentifierCols df))
  else .error (.configurationError (year :: DATA_YEARS))

/-- get_dfs(years): assert all years are supported (the failure message
interpolates only list(DATA_YEARS)), then build the year-to-frame mapping. -/
def get_dfs (years : List Nat) (fs : Nat → Option DataFrame) :
    Except PdError (List (Nat × DataFrame)) :=
  if years.all (fun y => y ∈ DATA_YEARS) then
    years.mapM (fun y => (get_df y fs).map (fun d => (y, d)))
  else .error (.configurationError DATA_YEARS)

/-- The converter applied to the regional key column while parsing
city_info.csv: lambda x: str(x)[:5] + str(x)[9:]. -/
def regionalKeyConverter (x : String) : String :=
  x.take 5 ++ x.drop 9

/-- get_city_info on an already-parsed raw frame: apply the regional key
converter, then rename the area column to "sq km". -/
def get_city_info (raw : DataFrame) : DataFrame :=
  let df := raw.map (fun col =>
    if col.1 = "regional key" then (col.1, col.2.map regionalKeyConverter) else col)
  df.map (fun col => if col.1 = "area in km²" then ("sq km", col.2) else col)

/-- Row filtering by a boolean mask, df[mask]: keep, in every column, the
values at the positions where the mask is true. -/
def filterRows (df : DataFrame) (mask : List Bool) : DataFrame :=
  df.map (fun col => (col.1, ((col.2.zip mask).filter (fun p => p.2)).map Prod.fst))

/-- get_regional_key(df, city_name):
city_info = df[df["city"] == city_name]; return city_info["regional key"].values[0].
Positional index 0 into the values of the filtered key column; an empty result
is an IndexError, exactly as in numpy. -/
def get_regional_key (df : DataFrame) (city_name : String) : Except PdError String :=
  match getCol df "city" with
  | none => .error (.keyError "city")
  | some cities =>
    let mask := cities.map (fun c => c == city_name)
    let city_info := filterRows df mask
    match getCol city_info "regional key" with
    | none => .error (.keyError "regional key")
    | some keys =>
      match keys.get? 0 with
      | some k => .ok k
      | none => .error (.indexError 0)

/-- Unwrap an ok frame (used only to phrase closed witness statements). -/
def okFrame (e : Except PdError DataFrame) : DataFrame :=
  (Except.toOption e).getD []

/-! ## Basic lemmas about the frame operations -/

lemma hasCol_eq_isSome (df : DataFrame) (c : String) :
    hasCol df c = (getCol df c).isSome := by
  induction df with
  | nil => rfl
  | cons col tl ih =>
    by_cases h : col.1 = c
    · simp [hasCol, getCol, List.find?, h]
    · simp only [hasCol, getCol, List.any_cons, List.find?] at *
      simp [h, ih]

lemma getCol_cons_self (col : Column) (tl : DataFrame) (c : String) (h : col.1 = c) :
    getCol (col :: tl) c = some col.2 := by
  simp [getCol, List.find?_cons_of_pos, h]

lemma getCol_cons_of_ne (col : Column) (tl : DataFrame) (c : String) (h : col.1 ≠ c) :
    getCol (col :: tl) c = getCol tl c := by
  simp only [getCol]
  rw [List.find?_cons_of_neg]
  simp [h]


lemma hasCol_cons_ne (col : Column) (tl : DataFrame) (c : String) (h : col.1 ≠ c) :
    hasCol (col :: tl) c = hasCol tl c := by
  simp [hasCol, h]

lemma getCol_mapOverwrite_self (df : DataFrame) (c : String) (vs : List String)
    (h : hasCol df c = true) :
    getCol (df.map (fun col => if col.1 = c then (c, vs) else col)) c = some vs := by
  induction df with
  | nil => simp [hasCol] at h
  | cons col tl ih =>
    by_cases hc : col.1 = c
    · simp only [List.map_cons, hc, if_true]
      exact getCol_cons_self _ _ _ rfl
    · rw [hasCol_cons_ne _ _ _ hc] at h
      simp only [List.map_cons, hc, if_false]
      rw [getCol_cons_of_ne _ _ _ hc]
      exact ih h

lemma getCol_append_single_self (df : DataFrame) (c : String) (vs : List String)
    (h : hasCol df c = false) :
    getCol (df ++ [(c, vs)]) c = some vs := by
  induction df with
  | nil => exact getCol_cons_self _ _ _ rfl
  | cons col tl ih =>
    have hc : col.1 ≠ c := by
      intro hcc
      simp [hasCol, hcc] at h
    rw [hasCol_cons_ne _ _ _ hc] at h
    rw [List.cons_append, getCol_cons_of_ne _ _ _ hc]
    exact ih h

lemma getCol_setCol_self (df : DataFrame) (c : String) (vs : List String) :
    getCol (setCol df c vs) c = some vs := by
  unfold setCol
  by_cases h : hasCol df c
  · rw [if_pos h]
    exact getCol_mapOverwrite_self _ _ _ h
  · rw [if_neg h]
    exact getCol_append_single_self _ _ _ (Bool.not_eq_true _ ▸ h)

lemma getCol_mapOverwrite_ne (df : DataFrame) (c c2 : String) (vs : List String)
    (h : c2 ≠ c) :
    getCol (df.map (fun col => if col.1 = c2 then (c2, vs) else col)) c = getCol df c := by
  induction df with
  | nil => rfl
  | cons col tl ih =>
    by_cases hc : col.1 = c2
    · simp only [List.map_cons, hc, if_true]
      rw [getCol_cons_of_ne _ _ _ h, getCol_cons_of_ne _ _ _ (hc ▸ h)]
      exact ih
    · simp only [List.map_cons, hc, if_false]
      by_cases hcc : col.1 = c
      · rw [getCol_cons_self _ _ _ hcc, getCol_cons_self _ _ _ hcc]
      · rw [getCol_cons_of_ne _ _ _ hcc, getCol_cons_of_ne _ _ _ hcc]
        exact ih

lemma getCol_append_single_ne (df : DataFrame) (c c2 : String) (vs : List String)
    (h : c2 ≠ c) :
    getCol (df ++ [(c2, vs)]) c = getCol df c := by
  induction df with
  | nil =>
    simp only [List.nil_append]
    rw [getCol_cons_of_ne _ _ _ h]
  | cons col tl ih =>
    by_cases hcc : col.1 = c
    · rw [List.cons_append, getCol_cons_self _ _ _ hcc, getCol_cons_self _ _ _ hcc]
    · rw [List.cons_append, getCol_cons_of_ne _ _ _ hcc, getCol_cons_of_ne _ _ _ hcc]
      exact ih

lemma getCol_setCol_ne (df : DataFrame) (c c2 : String) (vs : List String) (h : c2 ≠ c) :
    getCol (setCol df c2 vs) c = getCol df c := by
  unfold setCol
  by_cases hp : hasCol df c2
  · rw [if_pos hp]
    exact getCol_mapOverwrite_ne _ _ _ _ h
  · rw [if_neg hp]
    exact getCol_append_single_ne _ _ _ _ h

lemma hasCol_setCol_ne (df : DataFrame) (c c2 : String) (vs : List String) (h : c2 ≠ c) :
    hasCol (setCol df c2 vs) c = hasCol df c := by
  rw [hasCol_eq_isSome, hasCol_eq_isSome, getCol_setCol_ne _ _ _ _ h]

lemma dropCol_cons_self (col : Column) (tl : DataFrame) (c : String) (h : col.1 = c) :
    dropCol (col :: tl) c = dropCol tl c := by
  simp [dropCol, List.filter_cons, h]

lemma dropCol_cons_ne (col : Column) (tl : DataFrame) (c : String) (h : col.1 ≠ c) :
    dropCol (col :: tl) c = col :: dropCol tl c := by
  simp [dropCol, List.filter_cons, h]

lemma getCol_dropCol_self (df : DataFrame) (c : String) :
    getCol (dropCol df c) c = none := by
  induction df with
  | nil => rfl
  | cons col tl ih =>
    by_cases hc : col.1 = c
    · rw [dropCol_cons_self _ _ _ hc]
      exact ih
    · rw [dropCol_cons_ne _ _ _ hc, getCol_cons_of_ne _ _ _ hc]
      exact ih

lemma getCol_dropCol_ne (df : DataFrame) (c c2 : String) (h : c2 ≠ c) :
    getCol (dropCol df c2) c = getCol df c := by
  induction df with
  | nil => rfl
  | cons col tl ih =>
    by_cases hc : col.1 = c2
    · rw [dropCol_cons_self _ _ _ hc, getCol_cons_of_ne _ _ _ (by rw [hc]; exact hc ▸ h)]
      exact ih
    · by_cases hcc : col.1 = c
      · rw [dropCol_cons_ne _ _ _ hc, getCol_cons_self _ _ _ hcc, getCol_cons_self _ _ _ hcc]
      · rw [dropCol_cons_ne _ _ _ hc, getCol_cons_of_ne _ _ _ hcc, getCol_cons_of_ne _ _ _ hcc]
        exact ih

lemma hasCol_dropCol_self (df : DataFrame) (c : String) :
    hasCol (dropCol df c) c = false := by
  rw [hasCol_eq_isSome, getCol_dropCol_self]
  rfl

lemma hasCol_dropCol_ne (df : DataFrame) (c c2 : String) (h : c2 ≠ c) :
    hasCol (dropCol df c2) c = hasCol df c := by
  rw [hasCol_eq_isSome, hasCol_eq_isSome, getCol_dropCol_ne _ _ _ h]

/-! ## Lemmas about the rename mapping -/

lemma renameOne_eq_self_of_not_key (c : String)
    (h1 : c ≠ "IstSonstig") (h2 : c ≠ "STRZUSTAND") (h3 : c ≠ "IstStrasse")
    (h4 : c ≠ "IstStrassenzustand") (h5 : c ≠ "LICHT") (h6 : c ≠ "OBJECTID")
    (h7 : c ≠ "OBJECTID_1") : renameOne c = c := by
  have e1 : (c == "IstSonstig") = false := beq_eq_false_iff_ne.mpr h1
  have e2 : (c == "STRZUSTAND") = false := beq_eq_false_iff_ne.mpr h2
  have e3 : (c == "IstStrasse") = false := beq_eq_false_iff_ne.mpr h3
  have e4 : (c == "IstStrassenzustand") = false := beq_eq_false_iff_ne.mpr h4
  have e5 : (c == "LICHT") = false := beq_eq_false_iff_ne.mpr h5
  have e6 : (c == "OBJECTID") = false := beq_eq_false_iff_ne.mpr h6
  have e7 : (c == "OBJECTID_1") = false := beq_eq_false_iff_ne.mpr h7
  simp [renameOne, renameMap, List.lookup, e1, e2, e3, e4, e5, e6, e7]

lemma renameOne_cases (c : String) :
    renameOne c = c ∨
      renameOne c ∈ (["IstSonstige", "USTRZUSTAND", "ULICHTVERH", "OID_"] : List String) := by
  by_cases h1 : c = "IstSonstig"
  · right; rw [h1]; decide
  by_cases h2 : c = "STRZUSTAND"
  · right; rw [h2]; decide
  by_cases h3 : c = "IstStrasse"
  · right; rw [h3]; decide
  by_cases h4 : c = "IstStrassenzustand"
  · right; rw [h4]; decide
  by_cases h5 : c = "LICHT"
  · right; rw [h5]; decide
  by_cases h6 : c = "OBJECTID"
  · right; rw [h6]; decide
  by_cases h7 : c = "OBJECTID_1"
  · right; rw [h7]; decide
  left
  exact renameOne_eq_self_of_not_key c h1 h2 h3 h4 h5 h6 h7

/-- A label outside the four canonical rename targets is only reached by the
rename from itself. -/
lemma renameOne_stable (n : String)
    (hT : n ∉ (["IstSonstige", "USTRZUSTAND", "ULICHTVERH", "OID_"] : List String)) :
    ∀ c, renameOne c = n → c = n := by
  intro c hc
  rcases renameOne_cases c with h | h
  · rw [h] at hc
    exact hc
  · exact absurd (hc ▸ h) hT

lemma getCol_renameCols_of_stable (df : DataFrame) (n : String)
    (hstab : ∀ c, renameOne c = n → c = n) (hfix : renameOne n = n) :
    getCol (renameCols df) n = getCol df n := by
  induction df with
  | nil => rfl
  | cons col tl ih =>
    by_cases hm : renameOne col.1 = n
    · have hcc : col.1 = n := hstab _ hm
      simp only [renameCols, List.map_cons]
      rw [getCol_cons_self _ _ _ hm, getCol_cons_self _ _ _ hcc]
    · have hcc : col.1 ≠ n := by
        intro hx
        rw [hx] at hm
        exact hm hfix
      simp only [renameCols, List.map_cons]
      rw [getCol_cons_of_ne _ _ _ hm, getCol_cons_of_ne _ _ _ hcc]
      exact ih

lemma hasCol_renameCols_false (df : DataFrame) (n : String)
    (hstab : ∀ c, renameOne c = n → c = n) (h : hasCol df n = false) :
    hasCol (renameCols df) n = false := by
  induction df with
  | nil => rfl
  | cons col tl ih =>
    have hcc : col.1 ≠ n := by
      intro hx
      simp [hasCol, hx] at h
    have hm : renameOne col.1 ≠ n := fun hx => hcc (hstab _ hx)
    rw [hasCol_cons_ne _ _ _ hcc] at h
    simp only [renameCols, List.map_cons]
    rw [hasCol_cons_ne _ _ _ hm]
    exact ih h

lemma hasCol_renameCols_of_fix (df : DataFrame) (n : String)
    (hfix : renameOne n = n) (h : hasCol df n = true) :
    hasCol (renameCols df) n = true := by
  induction df with
  | nil => simp [hasCol] at h
  | cons col tl ih =>
    by_cases hcc : col.1 = n
    · simp only [renameCols, List.map_cons]
      simp [hasCol, hcc, hfix]
    · rw [hasCol_cons_ne _ _ _ hcc] at h
      simp only [renameCols, List.map_cons]
      by_cases hm : renameOne col.1 = n
      · simp [hasCol, hm]
      · rw [hasCol_cons_ne _ _ _ hm]
        exact ih h

/-! ## Lemmas about the drop block -/

lemma getCol_dropStreetVariant_ne (df : DataFrame) (n : String)
    (h1 : n ≠ "UIDENTSTLAE") (h2 : n ≠ "UIDENTSTLA") :
    getCol (dropStreetVariant df) n = getCol df n := by
  unfold dropStreetVariant
  split_ifs with hE hA
  · exact getCol_dropCol_ne _ _ _ (Ne.symm h1)
  · exact getCol_dropCol_ne _ _ _ (Ne.symm h2)
  · rfl

lemma getCol_dropFid_ne (df : DataFrame) (n : String) (h : n ≠ "FID") :
    getCol (dropFid df) n = getCol df n := by
  unfold dropFid
  split_ifs with hF
  · exact getCol_dropCol_ne _ _ _ (Ne.symm h)
  · rfl

lemma getCol_dropPlst_ne (df : DataFrame) (n : String) (h : n ≠ "PLST") :
    getCol (dropPlst df) n = getCol df n := by
  unfold dropPlst
  split_ifs with hP
  · exact getCol_dropCol_ne _ _ _ (Ne.symm h)
  · rfl

lemma getCol_dropIdentifierCols_ne (df : DataFrame) (n : String)
    (h1 : n ≠ "UIDENTSTLAE") (h2 : n ≠ "UIDENTSTLA") (h3 : n ≠ "FID") (h4 : n ≠ "PLST") :
    getCol (dropIdentifierCols df) n = getCol df n := by
  unfold dropIdentifierCols
  rw [getCol_dropPlst_ne _ _ h4, getCol_dropFid_ne _ _ h3,
    getCol_dropStreetVariant_ne _ _ h1 h2]

lemma hasCol_dropStreetVariant_ne (df : DataFrame) (n : String)
    (h1 : n ≠ "UIDENTSTLAE") (h2 : n ≠ "UIDENTSTLA") :
    hasCol (dropStreetVariant df) n = hasCol df n := by
  rw [hasCol_eq_isSome, hasCol_eq_isSome, getCol_dropStreetVariant_ne _ _ h1 h2]

lemma hasCol_dropFid_ne (df : DataFrame) (n : String) (h : n ≠ "FID") :
    hasCol (dropFid df) n = hasCol df n := by
  rw [hasCol_eq_isSome, hasCol_eq_isSome, getCol_dropFid_ne _ _ h]

lemma hasCol_dropPlst_ne (df : DataFrame) (n : String) (h : n ≠ "PLST") :
    hasCol (dropPlst df) n = hasCol df n := by
  rw [hasCol_eq_isSome, hasCol_eq_isSome, getCol_dropPlst_ne _ _ h]

lemma hasCol_dropFid_fid (df : DataFrame) : hasCol (dropFid df) "FID" = false := by
  unfold dropFid
  split_ifs with hF
  · exact hasCol_dropCol_self _ _
  · simpa using hF

lemma hasCol_dropPlst_plst (df : DataFrame) : hasCol (dropPlst df) "PLST" = false := by
  unfold dropPlst
  split_ifs with hP
  · exact hasCol_dropCol_self _ _
  · simpa using hP

lemma hasCol_dropStreetVariant_both_absent (df : DataFrame)
    (hBoth : ¬(hasCol df "UIDENTSTLAE" = true ∧ hasCol df "UIDENTSTLA" = true)) :
    hasCol (dropStreetVariant df) "UIDENTSTLAE" = false ∧
      hasCol (dropStreetVariant df) "UIDENTSTLA" = false := by
  unfold dropStreetVariant
  split_ifs with hE hA
  · refine ⟨hasCol_dropCol_self _ _, ?_⟩
    rw [hasCol_dropCol_ne _ _ _ (by decide)]
    have : ¬ hasCol df "UIDENTSTLA" = true := fun hA2 => hBoth ⟨hE, hA2⟩
    simpa using this
  · refine ⟨?_, hasCol_dropCol_self _ _⟩
    rw [hasCol_dropCol_ne _ _ _ (by decide)]
    simpa using hE
  · exact ⟨by simpa using hE, by simpa using hA⟩

lemma dropStreetVariant_of_first (df : DataFrame) (hE : hasCol df "UIDENTSTLAE" = true) :
    dropStreetVariant df = dropCol df "UIDENTSTLAE" := by
  unfold dropStreetVariant
  rw [if_pos hE]

lemma dropStreetVariant_noop (df : DataFrame)
    (hE : hasCol df "UIDENTSTLAE" = false) (hA : hasCol df "UIDENTSTLA" = false) :
    dropStreetVariant df = df := by
  unfold dropStreetVariant
  rw [if_neg (by simp [hE]), if_neg (by simp [hA])]

lemma dropFid_noop (df : DataFrame) (hF : hasCol df "FID" = false) : dropFid df = df := by
  unfold dropFid
  rw [if_neg (by simp [hF])]

lemma dropPlst_noop (df : DataFrame) (hP : hasCol df "PLST" = false) : dropPlst df = df := by
  unfold dropPlst
  rw [if_neg (by simp [hP])]

/-! ## Lemmas about the Community_key construction -/

lemma getCol_locSetCommunity_ne (df : DataFrame) (s n : String) (h : n ≠ "Community_key") :
    getCol (locSetCommunity df s) n = getCol df n := by
  unfold locSetCommunity
  cases hU : getCol df "ULAND" <;> cases hC : getCol df "Community_key" <;>
    simp only [hU, hC]
  exact getCol_setCol_ne _ _ _ _ (Ne.symm h)

lemma applyCityStates_eq (df : DataFrame) :
    applyCityStates df = locSetCommunity (locSetCommunity df "11") "02" := rfl

lemma getCol_applyCityStates_ne (df : DataFrame) (n : String) (h : n ≠ "Community_key") :
    getCol (applyCityStates df) n = getCol df n := by
  rw [applyCityStates_eq, getCol_locSetCommunity_ne _ _ _ h,
    getCol_locSetCommunity_ne _ _ _ h]

lemma hasCol_applyCityStates_ne (df : DataFrame) (n : String) (h : n ≠ "Community_key") :
    hasCol (applyCityStates df) n = hasCol df n := by
  rw [hasCol_eq_isSome, hasCol_eq_isSome, getCol_applyCityStates_ne _ _ h]

lemma locSetCommunity_spec (df : DataFrame) (s : String) (ul ck : List String)
    (hU : getCol df "ULAND" = some ul) (hC : getCol df "Community_key" = some ck) :
    locSetCommunity df s =
      setCol df "Community_key"
        (List.zipWith (fun u c => if u = s then s ++ "000000" else c) ul ck) := by
  unfold locSetCommunity
  rw [hU, hC]

lemma applyCityStates_spec (df : DataFrame) (ul ck : List String)
    (hU : getCol df "ULAND" = some ul) (hC : getCol df "Community_key" = some ck) :
    getCol (applyCityStates df) "Community_key" =
      some (List.zipWith (fun u c => if u = "02" then "02000000" else c) ul
        (List.zipWith (fun u c => if u = "11" then "11000000" else c) ul ck)) := by
  rw [applyCityStates_eq, locSetCommunity_spec df "11" ul ck hU hC]
  simp only [show ("11" : String) ++ "000000" = "11000000" from rfl,
    show ("02" : String) ++ "000000" = "02000000" from rfl]
  have hU1 : getCol (setCol df "Community_key"
      (List.zipWith (fun u c => if u = "11" then "11000000" else c) ul ck)) "ULAND" =
      some ul := by
    rw [getCol_setCol_ne _ _ _ _ (by decide)]
    exact hU
  rw [locSetCommunity_spec _ "02" ul _ hU1 (getCol_setCol_self _ _ _)]
  exact getCol_setCol_self _ _ _

/-! ## Inversion lemmas for the pipeline -/

lemma addCommunityKey_ok_inv (raw dfA : DataFrame) (h : addCommunityKey raw = .ok dfA) :
    ∃ ul ur uk ug, getCol raw "ULAND" = some ul ∧ getCol raw "UREGBEZ" = some ur ∧
      getCol raw "UKREIS" = some uk ∧ getCol raw "UGEMEINDE" = some ug ∧
      dfA = applyCityStates (setCol raw "Community_key" (communityKeyRaw ul ur uk ug)) := by
  unfold addCommunityKey at h
  split at h
  · rename_i ul ur uk ug hU hR hK hG
    exact ⟨ul, ur, uk, ug, hU, hR, hK, hG, ((Except.ok.injEq _ _).mp h).symm⟩
  all_goals simp_all

lemma addUID_ok_inv (year : Nat) (df out : DataFrame) (h : addUID year df = .ok out) :
    ∃ oids, getCol df "OID_" = some oids ∧
      out = setCol df "UID" (oids.map (uidOf year)) := by
  unfold addUID at h
  split at h
  · rename_i oids hO
    exact ⟨oids, hO, ((Except.ok.injEq _ _).mp h).symm⟩
  · exact absurd h (by simp)

lemma get_df_ok_inv (year : Nat) (fs : Nat → Option DataFrame) (df : DataFrame)
    (h : get_df year fs = .ok df) :
    year ∈ DATA_YEARS ∧ ∃ raw dfA, fs year = some raw ∧ addCommunityKey raw = .ok dfA ∧
      addUID year (renameCols (dropIdentifierCols dfA)) = .ok df := by
  unfold get_df at h
  split at h
  · rename_i hy
    split at h
    · exact absurd h (by simp)
    · rename_i raw hraw
      split at h
      · exact absurd h (by simp)
      · rename_i dfA hA
        exact ⟨hy, raw, dfA, hraw, hA, h⟩
  · exact absurd h (by simp)

/-! ## Pointwise lemmas for the derived columns -/

lemma zipWith_get?_some {f : String → String → String} {xs ys : List String} {j : Nat}
    {a b : String} (ha : xs.get? j = some a) (hb : ys.get? j = some b) :
    (List.zipWith f xs ys).get? j = some (f a b) := by
  rw [List.get?_zipWith, ha, hb]

lemma communityKeyRaw_get? (ul ur uk ug : List String) (j : Nat) (a b c d : String)
    (ha : ul.get? j = some a) (hb : ur.get? j = some b) (hc : uk.get? j = some c)
    (hd : ug.get? j = some d) :
    (communityKeyRaw ul ur uk ug).get? j = some (a ++ b ++ c ++ d) := by
  unfold communityKeyRaw
  exact zipWith_get?_some (zipWith_get?_some (zipWith_get?_some ha hb) hc) hd

/-! ## Injectivity of the UID string -/

lemma string_append_left_cancel (p a b : String) (h : p ++ a = p ++ b) : a = b := by
  have hd := congrArg String.data h
  rw [String.data_append, String.data_append] at hd
  exact String.ext (List.append_cancel_left hd)

lemma string_append_inj (p q a b : String) (hl : p.length = q.length)
    (h : p ++ a = q ++ b) : p = q ∧ a = b := by
  have hd := congrArg String.data h
  rw [String.data_append, String.data_append] at hd
  have hlen : p.data.length = q.data.length := hl
  obtain ⟨h1, h2⟩ := List.append_inj hd hlen
  exact ⟨String.ext h1, String.ext h2⟩

lemma uidOf_inj (y1 y2 : Nat) (h1 : y1 ∈ DATA_YEARS) (h2 : y2 ∈ DATA_YEARS)
    (o1 o2 : String) (h : uidOf y1 o1 = uidOf y2 o2) : y1 = y2 ∧ o1 = o2 := by
  have h4 : ∀ y ∈ DATA_YEARS, (toString y ++ "_").length = 5 := by decide
  have hinj : ∀ y ∈ DATA_YEARS, ∀ y2 ∈ DATA_YEARS,
      toString y ++ "_" = toString y2 ++ "_" → y = y2 := by decide
  unfold uidOf at h
  obtain ⟨hpq, hab⟩ := string_append_inj _ _ _ _
    (by rw [h4 y1 h1, h4 y2 h2]) h
  exact ⟨hinj y1 h1 y2 h2 hpq, hab⟩

/-! ## What an ok result of get_df looks like, column by column -/

lemma renameOne_fix_of_canonical (n : String)
    (h : n ∈ (["ULAND", "UREGBEZ", "UKREIS", "UGEMEINDE", "Community_key",
      "UID", "OID_", "IstSonstige", "USTRZUSTAND", "ULICHTVERH"] : List String)) :
    renameOne n = n := by
  fin_cases h <;> decide

lemma get_df_ok_fragments (year : Nat) (fs : Nat → Option DataFrame) (df : DataFrame)
    (h : get_df year fs = .ok df) :
    ∃ ul ur uk ug,
      getCol df "ULAND" = some ul ∧ getCol df "UREGBEZ" = some ur ∧
      getCol df "UKREIS" = some uk ∧ getCol df "UGEMEINDE" = some ug ∧
      getCol df "Community_key" =
        some (List.zipWith (fun u c => if u = "02" then "02000000" else c) ul
          (List.zipWith (fun u c => if u = "11" then "11000000" else c) ul
            (communityKeyRaw ul ur uk ug))) := by
  obtain ⟨hy, raw, dfA, hraw, hCK, hUID⟩ := get_df_ok_inv year fs df h
  obtain ⟨ul, ur, uk, ug, hU, hR, hK, hG, hdfA⟩ := addCommunityKey_ok_inv raw dfA hCK
  obtain ⟨oids, hO, hdf⟩ := addUID_ok_inv year (renameCols (dropIdentifierCols dfA)) df hUID
  have trans : ∀ n : String, n ≠ "UID" → n ≠ "UIDENTSTLAE" → n ≠ "UIDENTSTLA" →
      n ≠ "FID" → n ≠ "PLST" →
      (∀ c, renameOne c = n → c = n) → renameOne n = n →
      getCol df n = getCol dfA n := by
    intro n hn1 hn2 hn3 hn4 hn5 hstab hfix
    rw [hdf, getCol_setCol_ne _ _ _ _ (Ne.symm hn1),
      getCol_renameCols_of_stable _ _ hstab hfix,
      getCol_dropIdentifierCols_ne _ _ hn2 hn3 hn4 hn5]
  have hUL : getCol df "ULAND" = some ul := by
    rw [trans "ULAND" (by decide) (by decide) (by decide) (by decide) (by decide)
      (renameOne_stable _ (by decide)) (by decide)]
    rw [hdfA, getCol_applyCityStates_ne _ _ (by decide),
      getCol_setCol_ne _ _ _ _ (by decide)]
    exact hU
  have hUR : getCol df "UREGBEZ" = some ur := by
    rw [trans "UREGBEZ" (by decide) (by decide) (by decide) (by decide) (by decide)
      (renameOne_stable _ (by decide)) (by decide)]
    rw [hdfA, getCol_applyCityStates_ne _ _ (by decide),
      getCol_setCol_ne _ _ _ _ (by decide)]
    exact hR
  have hUK : getCol df "UKREIS" = some uk := by
    rw [trans "UKREIS" (by decide) (by decide) (by decide) (by decide) (by decide)
      (renameOne_stable _ (by decide)) (by decide)]
    rw [hdfA, getCol_applyCityStates_ne _ _ (by decide),
      getCol_setCol_ne _ _ _ _ (by decide)]
    exact hK
  have hUG : getCol df "UGEMEINDE" = some ug := by
    rw [trans "UGEMEINDE" (by decide) (by decide) (by decide) (by decide) (by decide)
      (renameOne_stable _ (by decide)) (by decide)]
    rw [hdfA, getCol_applyCityStates_ne _ _ (by decide),
      getCol_setCol_ne _ _ _ _ (by decide)]
    exact hG
  have hCKv : getCol df "Community_key" =
      some (List.zipWith (fun u c => if u = "02" then "02000000" else c) ul
        (List.zipWith (fun u c => if u = "11" then "11000000" else c) ul
          (communityKeyRaw ul ur uk ug))) := by
    rw [trans "Community_key" (by decide) (by decide) (by decide) (by decide) (by decide)
      (renameOne_stable _ (by decide)) (by decide)]
    rw [hdfA]
    refine applyCityStates_spec _ ul _ ?_ (getCol_setCol_self _ _ _)
    rw [getCol_setCol_ne _ _ _ _ (by decide)]
    exact hU
  exact ⟨ul, ur, uk, ug, hUL, hUR, hUK, hUG, hCKv⟩

lemma get_df_ok_uid (year : Nat) (fs : Nat → Option DataFrame) (df : DataFrame)
    (h : get_df year fs = .ok df) :
    ∃ oids, getCol df "OID_" = some oids ∧
      getCol df "UID" = some (oids.map (uidOf year)) := by
  obtain ⟨hy, raw, dfA, hraw, hCK, hUID⟩ := get_df_ok_inv year fs df h
  obtain ⟨oids, hO, hdf⟩ := addUID_ok_inv year (renameCols (dropIdentifierCols dfA)) df hUID
  refine ⟨oids, ?_, ?_⟩
  · rw [hdf, getCol_setCol_ne _ _ _ _ (by decide)]
    exact hO
  · rw [hdf]
    exact getCol_setCol_self _ _ _

lemma get_df_ok_year_mem (year : Nat) (fs : Nat → Option DataFrame) (df : DataFrame)
    (h : get_df year fs = .ok df) : year ∈ DATA_YEARS :=
  (get_df_ok_inv year fs df h).1

/-! ## Witness fixtures -/

/-- A small raw year table: one ordinary row and one Berlin (city-state) row. -/
def wRaw : DataFrame :=
  [("ULAND", ["05", "11"]), ("UREGBEZ", ["1", "0"]), ("UKREIS", ["62", "00"]),
   ("UGEMEINDE", ["004", "000"]), ("OBJECTID", ["42", "7"]), ("FID", ["a", "b"])]

/-- A filesystem holding wRaw as the 2020 csv and nothing else. -/
def wFs : Nat → Option DataFrame := fun y => if y = 2020 then some wRaw else none

/-! ## The claims -/

/-- C1: for every supported year, in the table returned by get_df every row has
Community_key equal to the concatenation ULAND ++ UREGBEZ ++ UKREIS ++
UGEMEINDE, except that a row whose ULAND is "11" or "02" has Community_key
equal to that state code followed by "000000", regardless of the other three
fragments. -/
theorem community_key_formula (year : Nat) (fs : Nat → Option DataFrame)
    (df : DataFrame) (h : get_df year fs = .ok df) (j : Nat) (ul ur uk ug ck : String)
    (hul : colCell df "ULAND" j = some ul) (hur : colCell df "UREGBEZ" j = some ur)
    (huk : colCell df "UKREIS" j = some uk) (hug : colCell df "UGEMEINDE" j = some ug)
    (hck : colCell df "Community_key" j = some ck) :
    (ul = "11" ∨ ul = "02" → ck = ul ++ "000000") ∧
      (ul ≠ "11" → ul ≠ "02" → ck = ul ++ ur ++ uk ++ ug) := by
  obtain ⟨ul0, ur0, uk0, ug0, hUL, hUR, hUK, hUG, hCK⟩ := get_df_ok_fragments year fs df h
  simp only [colCell, hUL, hUR, hUK, hUG, hCK, Option.some_bind] at hul hur huk hug hck
  have hraw := communityKeyRaw_get? ul0 ur0 uk0 ug0 j ul ur uk ug hul hur huk hug
  have h11 := zipWith_get?_some
    (f := fun u c => if u = "11" then "11000000" else c) hul hraw
  have h02 := zipWith_get?_some
    (f := fun u c => if u = "02" then "02000000" else c) hul h11
  rw [h02] at hck
  have hckv := ((Option.some.injEq _ _).mp hck).symm
  constructor
  · rintro (h1 | h1)
    · subst h1
      simp at hckv
      rw [hckv]
      decide
    · subst h1
      simp at hckv
      rw [hckv]
      decide
  · intro h1 h2
    simp [h1, h2] at hckv
    exact hckv

/-- C1 witness: evaluated on a concrete 2020 table, the ordinary row gets the
concatenated key. -/
theorem community_key_formula_witness :
    colCell (okFrame (get_df 2020 wFs)) "Community_key" 0 = some ("05" ++ "1" ++ "62" ++ "004") := by
  have h := community_key_formula 2020 wFs (okFrame (get_df 2020 wFs)) rfl
    0 "05" "1" "62" "004" "05162004" (by decide) (by decide) (by decide) (by decide) (by decide)
  have h2 := h.2 (by decide) (by decide)
  rw [← h2]
  decide

/-- C2: for every supported year, every row of the get_df table has UID equal
to the year, an underscore, and the row's object id (the OID_ column after the
rename); the UID for object id 42 in year 2020 is "2020_42"; and when object
ids are unique within each year, UIDs are unique across the union of all
years: equal UIDs in two ok tables force equal years and equal object ids, and
within one table they force the same row once OID_ is injective over rows. -/
theorem uid_formula_and_uniqueness (year : Nat) (fs : Nat → Option DataFrame)
    (df : DataFrame) (h : get_df year fs = .ok df) :
    (∀ j u o, colCell df "UID" j = some u → colCell df "OID_" j = some o →
      u = uidOf year o) ∧
    uidOf 2020 "42" = "2020_42" ∧
    (∀ year2 fs2 df2, get_df year2 fs2 = .ok df2 →
      ∀ j1 j2 u o1 o2, colCell df "UID" j1 = some u → colCell df2 "UID" j2 = some u →
        colCell df "OID_" j1 = some o1 → colCell df2 "OID_" j2 = some o2 →
        year = year2 ∧ o1 = o2) ∧
    (∀ j1 j2 u,
      (∀ i1 i2 o, colCell df "OID_" i1 = some o → colCell df "OID_" i2 = some o → i1 = i2) →
      colCell df "UID" j1 = some u → colCell df "UID" j2 = some u → j1 = j2) := by
  obtain ⟨oids, hO, hU⟩ := get_df_ok_uid year fs df h
  have formula : ∀ j u o, colCell df "UID" j = some u → colCell df "OID_" j = some o →
      u = uidOf year o := by
    intro j u o hu ho
    simp only [colCell, hO, hU, Option.some_bind, List.get?_map] at hu ho
    rw [ho] at hu
    exact ((Option.some.injEq _ _).mp hu).symm
  have oid_of_uid : ∀ j u, colCell df "UID" j = some u →
      ∃ o, colCell df "OID_" j = some o ∧ u = uidOf year o := by
    intro j u hu
    simp only [colCell, hO, hU, Option.some_bind, List.get?_map] at hu ⊢
    cases hoj : oids.get? j with
    | none => rw [hoj] at hu; exact absurd hu (by simp)
    | some o =>
      rw [hoj] at hu
      exact ⟨o, rfl, ((Option.some.injEq _ _).mp hu).symm⟩
  refine ⟨formula, by decide, ?_, ?_⟩
  · intro year2 fs2 df2 h2 j1 j2 u o1 o2 hu1 hu2 ho1 ho2
    have e1 := formula j1 u o1 hu1 ho1
    obtain ⟨oids2, hO2, hU2⟩ := get_df_ok_uid year2 fs2 df2 h2
    have e2 : u = uidOf year2 o2 := by
      simp only [colCell, hO2, hU2, Option.some_bind, List.get?_map] at hu2 ho2
      rw [ho2] at hu2
      exact ((Option.some.injEq _ _).mp hu2).symm
    exact uidOf_inj year year2 (get_df_ok_year_mem year fs df h)
      (get_df_ok_year_mem year2 fs2 df2 h2) o1 o2 (e1 ▸ e2 ▸ rfl)
  · intro j1 j2 u hinj hu1 hu2
    obtain ⟨o1, ho1, he1⟩ := oid_of_uid j1 u hu1
    obtain ⟨o2, ho2, he2⟩ := oid_of_uid j2 u hu2
    have : o1 = o2 := by
      have heq : uidOf year o1 = uidOf year o2 := by
        rw [← he1, ← he2]
      exact string_append_left_cancel _ _ _ heq
    exact hinj j1 j2 o1 ho1 (this ▸ ho2)

/-- C2 witness: on the concrete 2020 table, the theorem yields the UID of
object id 42. -/
theorem uid_formula_and_uniqueness_witness : ("2020_42" : String) = uidOf 2020 "42" := by
  have h := uid_formula_and_uniqueness 2020 wFs (okFrame (get_df 2020 wFs)) rfl
  exact h.1 0 "2020_42" "42" (by decide) (by decide)

/-- A small city-info table with a single city, used to exhibit the lookup
miss behaviour. -/
def wCityTable : DataFrame :=
  [("city", ["Munich"]), ("sq km", ["310.7"]), ("population", ["1512491"]),
   ("regional key", ["09162000"])]

/-- C3: looking up a city name with zero exact matches does NOT raise the
NotFoundError the specification contracts for; get_regional_key indexes
position 0 of an empty values array and the run dies with the unrelated
IndexError, on any table such as this concrete one. -/
theorem regional_key_missing_city_index_error :
    get_regional_key wCityTable "Atlantis" = .error (.indexError 0) := by
  rfl

/-- C4: for a year outside 2016-2024 get_df fails with the configuration
error (whose message interpolates the offending year and the supported
years), and the result does not depend on the filesystem at all: the assert
fires before any file is read. -/
theorem unsupported_year_config_error_no_io (year : Nat) (h : year ∉ DATA_YEARS) :
    ∀ fs : Nat → Option DataFrame,
      get_df year fs = .error (.configurationError (year :: DATA_YEARS)) ∧
      ∀ fs2 : Nat → Option DataFrame, get_df year fs = get_df year fs2 := by
  intro fs
  constructor
  · unfold get_df
    rw [if_neg h]
  · intro fs2
    unfold get_df
    rw [if_neg h, if_neg h]

/-- C4 witness: get_df at 1900 on an empty filesystem. -/
theorem unsupported_year_config_error_no_io_witness :
    get_df 1900 (fun _ => none) = .error (.configurationError (1900 :: DATA_YEARS)) :=
  (unsupported_year_config_error_no_io 1900 (by decide) (fun _ => none)).1

/-- C5 counterexample: requesting the unsupported year 1900, get_dfs fails
with a configuration error whose message names only the supported years
2016-2024; the offending year 1900 is not among the years the report names,
so the error does not report the set of offending years. -/
theorem get_dfs_error_omits_offending_years :
    get_dfs [1900] (fun _ => none) = .error (.configurationError DATA_YEARS) ∧
      1900 ∉ DATA_YEARS := by
  constructor
  · rfl
  · decide

/-- C5 as amended: when any requested year is unsupported, get_dfs fails with
a configuration error whose message names the full set of SUPPORTED years
(2016-2024) rather than the offending years, and no partial mapping is
returned (the result is the bare error). -/
theorem get_dfs_error_reports_supported_years (years : List Nat)
    (fs : Nat → Option DataFrame) (h : ¬ (years.all (fun y => y ∈ DATA_YEARS) = true)) :
    get_dfs years fs = .error (.configurationError DATA_YEARS) := by
  unfold get_dfs
  rw [if_neg h]

/-- C5 witness: the amended statement at the concrete request containing 1900. -/
theorem get_dfs_error_reports_supported_years_witness :
    get_dfs [1900, 2018] (fun _ => none) = .error (.configurationError DATA_YEARS) :=
  get_dfs_error_reports_supported_years [1900, 2018] (fun _ => none) (by decide)

/-- Raw (pre-converter) city-info row for Berlin: the official 12-character
municipal regional code. -/
def wBerlinRaw : DataFrame :=
  [("city", ["Berlin"]), ("area in km²", ["891.7"]), ("population", ["3662381"]),
   ("regional key", ["110000000000"])]

/-- C6 counterexample: on the standard 12-character raw code for Berlin the
lookup returns the truncation "11000000", which has 8 characters, not 9. -/
theorem regional_key_berlin_not_nine_chars :
    get_regional_key (get_city_info wBerlinRaw) "Berlin" = .ok "11000000" ∧
      ¬ ("11000000" : String).length = 9 := by
  constructor
  · rfl
  · decide

lemma getCol_get_city_info_regional (raw : DataFrame) (vals : List String)
    (h : getCol raw "regional key" = some vals) :
    getCol (get_city_info raw) "regional key" = some (vals.map regionalKeyConverter) := by
  induction raw with
  | nil => simp [getCol] at h
  | cons col tl ih =>
    by_cases hc : col.1 = "regional key"
    · rw [getCol_cons_self _ _ _ hc] at h
      have hstep : get_city_info (col :: tl) =
          (col.1, col.2.map regionalKeyConverter) :: get_city_info tl := by
        simp [get_city_info, hc]
      rw [hstep,
        getCol_cons_self (col.1, List.map regionalKeyConverter col.2) (get_city_info tl)
          "regional key" hc]
      injection h with h
      rw [h]
    · rw [getCol_cons_of_ne _ _ _ hc] at h
      have hstep : get_city_info (col :: tl) =
          (if col.1 = "area in km²" then ("sq km", col.2) else col) :: get_city_info tl := by
        by_cases ha : col.1 = "area in km²"
        · simp [get_city_info, ha, hc]
        · simp [get_city_info, ha, hc]
      rw [hstep, getCol_cons_of_ne]
      · exact ih h
      · by_cases ha : col.1 = "area in km²"
        · simp [ha]
        · simpa [ha] using hc

/-- C6 as amended: every regional key value produced by get_city_info is the
truncation of the raw municipal code keeping its first 5 characters and the
characters from position 10 onward; on the standard 12-character raw code
(Berlin) the lookup returns that truncation, an 8-character string (matching
the 8-character Community_key), not a 9-character one. -/
theorem regional_key_truncation_formula :
    (∀ (raw : DataFrame) (vals : List String), getCol raw "regional key" = some vals →
      getCol (get_city_info raw) "regional key" = some (vals.map regionalKeyConverter)) ∧
    (∀ x, regionalKeyConverter x = x.take 5 ++ x.drop 9) ∧
    get_regional_key (get_city_info wBerlinRaw) "Berlin" =
      .ok (regionalKeyConverter "110000000000") ∧
    (regionalKeyConverter "110000000000").length = 8 := by
  refine ⟨getCol_get_city_info_regional, fun x => rfl, rfl, by decide⟩

/-- C6 witness: the amended formula evaluated on the Berlin table. -/
theorem regional_key_truncation_formula_witness :
    getCol (get_city_info wBerlinRaw) "regional key" =
      some (List.map regionalKeyConverter ["110000000000"]) :=
  regional_key_truncation_formula.1 wBerlinRaw ["110000000000"] rfl

/-- C7: the rename of get_df is a pure one-shot lookup applied once per
column: each raw name maps to its canonical name, and the lookup is idempotent
(its outputs are never themselves renamed), so a later-listed raw name can
never clobber a canonical name produced by an earlier rename — there is no
sequential substitution. -/
theorem rename_pure_single_lookup :
    (∀ df : DataFrame, renameCols df = df.map (fun col => (renameOne col.1, col.2))) ∧
    renameOne "IstSonstig" = "IstSonstige" ∧
    renameOne "STRZUSTAND" = "USTRZUSTAND" ∧
    renameOne "IstStrasse" = "USTRZUSTAND" ∧
    renameOne "IstStrassenzustand" = "USTRZUSTAND" ∧
    renameOne "LICHT" = "ULICHTVERH" ∧
    renameOne "OBJECTID" = "OID_" ∧
    renameOne "OBJECTID_1" = "OID_" ∧
    (∀ c, renameOne (renameOne c) = renameOne c) := by
  refine ⟨fun df => rfl, by decide, by decide, by decide, by decide, by decide,
    by decide, by decide, ?_⟩
  intro c
  rcases renameOne_cases c with h | h
  · rw [h]
    exact h
  · simp only [List.mem_cons, List.not_mem_nil, or_false] at h
    rcases h with h | h | h | h <;> rw [h] <;> decide

/-- The canonical column names of the normalized schema: the four rename
targets plus the identifier and derived columns. -/
def canonicalColumns : List String :=
  ["IstSonstige", "USTRZUSTAND", "ULICHTVERH", "OID_", "ULAND", "UREGBEZ", "UKREIS",
   "UGEMEINDE", "Community_key", "UID"]

/-- C8: the rename step is a no-op on a table all of whose column names are
already canonical. -/
theorem rename_noop_on_canonical (df : DataFrame)
    (h : ∀ c ∈ colNames df, c ∈ canonicalColumns) : renameCols df = df := by
  induction df with
  | nil => rfl
  | cons col tl ih =>
    have hhead : col.1 ∈ canonicalColumns := h col.1 (List.mem_cons_self _ _)
    have htl : ∀ c ∈ colNames tl, c ∈ canonicalColumns :=
      fun c hc => h c (List.mem_cons_of_mem _ hc)
    have hfixall : ∀ c ∈ canonicalColumns, renameOne c = c := by decide
    have hstep : renameCols (col :: tl) = (renameOne col.1, col.2) :: renameCols tl := rfl
    rw [hstep, hfixall col.1 hhead, ih htl]

/-- C8 witness: a concrete all-canonical table is untouched. -/
theorem rename_noop_on_canonical_witness :
    renameCols [("ULAND", ["01"]), ("OID_", ["7"])] = [("ULAND", ["01"]), ("OID_", ["7"])] :=
  rename_noop_on_canonical [("ULAND", ["01"]), ("OID_", ["7"])] (by decide)

/-- C9: when at most one street-identifier variant is present in the raw
table, the normalized table contains none of FID, PLST, UIDENTSTLAE or
UIDENTSTLA; and when none of them is present the drop block is a no-op, so
absence is never an error. -/
theorem dropped_columns_absent (year : Nat) (fs : Nat → Option DataFrame)
    (raw df : DataFrame) (hraw : fs year = some raw)
    (hBoth : ¬(hasCol raw "UIDENTSTLAE" = true ∧ hasCol raw "UIDENTSTLA" = true))
    (h : get_df year fs = .ok df) :
    (hasCol df "FID" = false ∧ hasCol df "PLST" = false ∧
      hasCol df "UIDENTSTLAE" = false ∧ hasCol df "UIDENTSTLA" = false) ∧
    (∀ d : DataFrame, hasCol d "UIDENTSTLAE" = false → hasCol d "UIDENTSTLA" = false →
      hasCol d "FID" = false → hasCol d "PLST" = false → dropIdentifierCols d = d) := by
  obtain ⟨hy, raw2, dfA, hraw2, hCK, hUID⟩ := get_df_ok_inv year fs df h
  have hrr : raw = raw2 := by
    rw [hraw] at hraw2
    injection hraw2
  subst hrr
  obtain ⟨ul, ur, uk, ug, hU, hR, hK, hG, hdfA⟩ := addCommunityKey_ok_inv raw dfA hCK
  obtain ⟨oids, hO, hdf⟩ := addUID_ok_inv year (renameCols (dropIdentifierCols dfA)) df hUID
  have hAtoRaw : ∀ n : String, n ≠ "Community_key" → hasCol dfA n = hasCol raw n := by
    intro n hn
    rw [hdfA, hasCol_applyCityStates_ne _ _ hn, hasCol_setCol_ne _ _ _ _ (Ne.symm hn)]
  have hBothA : ¬(hasCol dfA "UIDENTSTLAE" = true ∧ hasCol dfA "UIDENTSTLA" = true) := by
    rw [hAtoRaw "UIDENTSTLAE" (by decide), hAtoRaw "UIDENTSTLA" (by decide)]
    exact hBoth
  obtain ⟨hSE, hSA⟩ := hasCol_dropStreetVariant_both_absent dfA hBothA
  have hDE : hasCol (dropIdentifierCols dfA) "UIDENTSTLAE" = false := by
    unfold dropIdentifierCols
    rw [hasCol_dropPlst_ne _ _ (by decide), hasCol_dropFid_ne _ _ (by decide)]
    exact hSE
  have hDA : hasCol (dropIdentifierCols dfA) "UIDENTSTLA" = false := by
    unfold dropIdentifierCols
    rw [hasCol_dropPlst_ne _ _ (by decide), hasCol_dropFid_ne _ _ (by decide)]
    exact hSA
  have hDF : hasCol (dropIdentifierCols dfA) "FID" = false := by
    unfold dropIdentifierCols
    rw [hasCol_dropPlst_ne _ _ (by decide)]
    exact hasCol_dropFid_fid _
  have hDP : hasCol (dropIdentifierCols dfA) "PLST" = false :=
    hasCol_dropPlst_plst _
  have out : ∀ n : String, n ≠ "UID" →
      (∀ c, renameOne c = n → c = n) →
      hasCol (dropIdentifierCols dfA) n = false → hasCol df n = false := by
    intro n hn hstab hfalse
    rw [hdf, hasCol_setCol_ne _ _ _ _ (Ne.symm hn)]
    exact hasCol_renameCols_false _ _ hstab hfalse
  refine ⟨⟨?_, ?_, ?_, ?_⟩, ?_⟩
  · exact out "FID" (by decide) (renameOne_stable _ (by decide)) hDF
  · exact out "PLST" (by decide) (renameOne_stable _ (by decide)) hDP
  · exact out "UIDENTSTLAE" (by decide) (renameOne_stable _ (by decide)) hDE
  · exact out "UIDENTSTLA" (by decide) (renameOne_stable _ (by decide)) hDA
  · intro d h1 h2 h3 h4
    unfold dropIdentifierCols
    rw [dropStreetVariant_noop _ h1 h2, dropFid_noop _ h3, dropPlst_noop _ h4]

/-- C9 witness: the concrete 2020 table (which has a FID column and no
street-identifier variant) normalizes to a table without FID. -/
theorem dropped_columns_absent_witness :
    hasCol (okFrame (get_df 2020 wFs)) "FID" = false :=
  (dropped_columns_absent 2020 wFs wRaw (okFrame (get_df 2020 wFs)) rfl
    (by decide) rfl).1.1

/-- A raw table carrying both street-identifier variants. -/
def wRawBoth : DataFrame :=
  [("ULAND", ["05"]), ("UREGBEZ", ["1"]), ("UKREIS", ["62"]), ("UGEMEINDE", ["004"]),
   ("OBJECTID", ["42"]), ("UIDENTSTLAE", ["e1"]), ("UIDENTSTLA", ["a1"])]

/-- A filesystem holding wRawBoth as the 2018 csv. -/
def wFsBoth : Nat → Option DataFrame := fun y => if y = 2018 then some wRawBoth else none

/-- C10: if a raw table contains both street-identifier variants, only
UIDENTSTLAE is dropped (the elif branch is skipped) and UIDENTSTLA is still a
column of the normalized table. -/
theorem both_variants_keep_uidentstla (year : Nat) (fs : Nat → Option DataFrame)
    (raw df : DataFrame) (hraw : fs year = some raw)
    (hE : hasCol raw "UIDENTSTLAE" = true) (hA : hasCol raw "UIDENTSTLA" = true)
    (h : get_df year fs = .ok df) :
    hasCol df "UIDENTSTLA" = true ∧ hasCol df "UIDENTSTLAE" = false := by
  obtain ⟨hy, raw2, dfA, hraw2, hCK, hUID⟩ := get_df_ok_inv year fs df h
  have hrr : raw = raw2 := by
    rw [hraw] at hraw2
    injection hraw2
  subst hrr
  obtain ⟨ul, ur, uk, ug, hU, hR, hK, hG, hdfA⟩ := addCommunityKey_ok_inv raw dfA hCK
  obtain ⟨oids, hO, hdf⟩ := addUID_ok_inv year (renameCols (dropIdentifierCols dfA)) df hUID
  have hAtoRaw : ∀ n : String, n ≠ "Community_key" → hasCol dfA n = hasCol raw n := by
    intro n hn
    rw [hdfA, hasCol_applyCityStates_ne _ _ hn, hasCol_setCol_ne _ _ _ _ (Ne.symm hn)]
  have hEA : hasCol dfA "UIDENTSTLAE" = true := by
    rw [hAtoRaw _ (by decide)]
    exact hE
  have hAA : hasCol dfA "UIDENTSTLA" = true := by
    rw [hAtoRaw _ (by decide)]
    exact hA
  have hSV : dropStreetVariant dfA = dropCol dfA "UIDENTSTLAE" :=
    dropStreetVariant_of_first dfA hEA
  have hDA : hasCol (dropIdentifierCols dfA) "UIDENTSTLA" = true := by
    unfold dropIdentifierCols
    rw [hasCol_dropPlst_ne _ _ (by decide), hasCol_dropFid_ne _ _ (by decide), hSV,
      hasCol_dropCol_ne _ _ _ (by decide)]
    exact hAA
  have hDE : hasCol (dropIdentifierCols dfA) "UIDENTSTLAE" = false := by
    unfold dropIdentifierCols
    rw [hasCol_dropPlst_ne _ _ (by decide), hasCol_dropFid_ne _ _ (by decide), hSV]
    exact hasCol_dropCol_self _ _
  constructor
  · rw [hdf, hasCol_setCol_ne _ _ _ _ (by decide)]
    exact hasCol_renameCols_of_fix _ _ (by decide) hDA
  · rw [hdf, hasCol_setCol_ne _ _ _ _ (by decide)]
    exact hasCol_renameCols_false _ _ (renameOne_stable _ (by decide)) hDE

/-- C10 witness: the concrete table with both variants keeps UIDENTSTLA. -/
theorem both_variants_keep_uidentstla_witness :
    hasCol (okFrame (get_df 2018 wFsBoth)) "UIDENTSTLA" = true :=
  (both_variants_keep_uidentstla 2018 wFsBoth wRawBoth (okFrame (get_df 2018 wFsBoth))
    rfl (by decide) (by decide) rfl).1
